import Mathlib

set_option maxRecDepth 8000

/-!
Shallow embedding of the ai-text-game turn pipeline (src/main.py,
src/health_manager.py, src/karma_manager.py).  Python strings are modelled
as `List Char` (ASCII idealisation of Python's unicode semantics), LLM calls
are modelled by passing their textual replies as `Option String` parameters
(`none` models a raised exception / missing `.content`), and the stochastic
draw of the turbulence system is passed in as a rational parameter.
-/

/-- Characters treated as whitespace by Python's `str.strip` and by the
regex class `\s` (ASCII range). -/
def isWS (c : Char) : Bool :=
  c == ' ' || c == '\t' || c == '\n' || c == '\r' || c == '\x0b' || c == '\x0c'

/-- ASCII digit test: the idealisation of the regex class `\d`. -/
def isDigitCh (c : Char) : Bool :=
  48 ≤ c.toNat && c.toNat ≤ 57

/-- Numeric value of an ASCII digit character. -/
def digitVal (c : Char) : Nat := c.toNat - 48

/-- Python `str.strip()`: drop whitespace from both ends. -/
def pyStrip (l : List Char) : List Char :=
  ((l.dropWhile isWS).reverse.dropWhile isWS).reverse

/-- Whether the first list is a prefix of the second. -/
def isPrefixList : List Char → List Char → Bool
  | [], _ => true
  | _ :: _, [] => false
  | p :: ps, c :: cs => p == c && isPrefixList ps cs

/-- Find the leftmost occurrence of `pat` in a character list and split
around it: returns `(text before the occurrence, text after it)`, or `none`
when `pat` does not occur.  This models `re.search` for a literal pattern. -/
def findSplit (pat : List Char) : List Char → Option (List Char × List Char)
  | [] => if isPrefixList pat [] then some ([], []) else none
  | c :: cs =>
    if isPrefixList pat (c :: cs) then some ([], (c :: cs).drop pat.length)
    else
      match findSplit pat cs with
      | some (pre, post) => some (c :: pre, post)
      | none => none

/-- Python's substring test `pat in s`. -/
def containsSub (s pat : List Char) : Bool :=
  (findSplit pat s).isSome

/-- Python `str.split(sep)` for a one-character separator: splits on every
occurrence, keeping empty pieces. -/
def splitOnChar (sep : Char) : List Char → List (List Char)
  | [] => [[]]
  | c :: rest =>
    if c == sep then [] :: splitOnChar sep rest
    else
      match splitOnChar sep rest with
      | t :: ts => (c :: t) :: ts
      | [] => [[c]]

/-- Python `','.join`: interleave a comma between the pieces. -/
def joinComma : List (List Char) → List Char
  | [] => []
  | [x] => x
  | x :: xs => x ++ ',' :: joinComma xs

/-- Accumulator loop of the digit-string reader: accepts further digits,
allowing a single underscore between two digits (Python `int` grammar). -/
def digitsValAux : Nat → List Char → Option Nat
  | acc, [] => some acc
  | acc, '_' :: c :: rest =>
    if isDigitCh c then digitsValAux (acc * 10 + digitVal c) rest else none
  | _, ['_'] => none
  | acc, c :: rest =>
    if isDigitCh c then digitsValAux (acc * 10 + digitVal c) rest else none

/-- Read an unsigned digit string (with Python's embedded-underscore rule);
`none` when the string is not a valid digit sequence. -/
def digitsVal : List Char → Option Nat
  | [] => none
  | c :: rest => if isDigitCh c then digitsValAux (digitVal c) rest else none

/-- Python `int(s)` on an already-stripped string: optional sign followed by
a digit sequence. -/
def pyIntCore : List Char → Option Int
  | [] => none
  | '-' :: rest => (digitsVal rest).map (fun n => -(n : Int))
  | '+' :: rest => (digitsVal rest).map (fun n => (n : Int))
  | l => (digitsVal l).map (fun n => (n : Int))

/-- Python `int(s)`: surrounding whitespace is ignored; `none` models the
`ValueError` raised on a malformed literal. -/
def pyInt (l : List Char) : Option Int :=
  pyIntCore (pyStrip l)

/-- Digit-emission loop for `str(n)`, driven by a fuel argument that is
always sufficient (`n + 1`). -/
def natDigitsAux : Nat → Nat → List Char → List Char
  | 0, _, acc => acc
  | Nat.succ fuel, n, acc =>
    if n < 10 then Char.ofNat (48 + n) :: acc
    else natDigitsAux fuel (n / 10) (Char.ofNat (48 + n % 10) :: acc)

/-- Decimal digits of a natural number, most significant first. -/
def natDigits (n : Nat) : List Char :=
  natDigitsAux (n + 1) n []

/-- Python `str(n)` for a natural number, as a Lean `String`. -/
def natStrS (n : Nat) : String :=
  String.mk (natDigits n)

/-- Python `str(i)` for an integer. -/
def intStr (i : Int) : List Char :=
  if i < 0 then '-' :: natDigits i.natAbs else natDigits i.toNat

/-- Python `str.lower()` (ASCII idealisation). -/
def toLowerList (l : List Char) : List Char :=
  l.map Char.toLower

/-- Dedup loop of `ResponseParser._clean_and_validate_results`: keep the
first occurrence of each token, tracking what has been seen. -/
def dedupAux (seen : List (List Char)) : List (List Char) → List (List Char)
  | [] => []
  | x :: xs => if x ∈ seen then dedupAux seen xs else x :: dedupAux (x :: seen) xs

/-- De-duplicate a token list preserving first-seen order. -/
def dedupFirst (l : List (List Char)) : List (List Char) :=
  dedupAux [] l

/-! ## Game state (src/main.py, class GameState) -/

/-- The mutable session record of `main.py`'s `GameState` (the pygame image
surface is omitted: it is presentation state, untouched by the pipeline). -/
structure GameState where
  name : String
  karma : Int
  chosen_setting : String
  health : Int
  inventory : List String
  turn : Nat
  last_gamemaster_message : String
  last_player_message : String
  turn_summary : String
  image_prompt : String
  deriving DecidableEq, Repr

/-- Model of `GameState.reset_life_values`: fields that start fresh with each life
(karma and name are not touched). -/
def reset_life_values (st : GameState) : GameState :=
  { st with
    health := 100
    inventory := []
    turn := 0
    last_gamemaster_message := ""
    last_player_message := ""
    turn_summary := ""
    image_prompt := "" }

/-- Model of `GameState.__init__`: name set, karma 0, no setting, then a life reset. -/
def GameState.init (name : String) : GameState :=
  reset_life_values
    { name := name, karma := 0, chosen_setting := "", health := 100,
      inventory := [], turn := 0, last_gamemaster_message := "",
      last_player_message := "", turn_summary := "", image_prompt := "" }

/-! ## Response parser (src/main.py, class ResponseParser) -/

/-- The six-field result dictionary produced by `ResponseParser.parse_response`. -/
structure ParsedResponse where
  health : Int
  inventory : List String
  karma : Int
  gamemaster_message : String
  image_prompt : String
  turn_summary : String
  deriving DecidableEq, Repr

/-- Start delimiter literal of the structured block. -/
def startMarker : List Char := "START_LLM_GENERATED_CONTENT:".data

/-- End delimiter literal of the structured block. -/
def endMarker : List Char := "END_LLM_GENERATED_CONTENT".data

/-- The search `re.search(r'START_LLM_GENERATED_CONTENT:(.*?)END_LLM_GENERATED_CONTENT', s, re.DOTALL)`:
the text between the first start marker and the first end marker after it. -/
def findBlock (s : List Char) : Option (List Char) :=
  match findSplit startMarker s with
  | none => none
  | some (_, rest) =>
    match findSplit endMarker rest with
    | none => none
    | some (content, _) => some content

/-- Attempt the tail of the pattern `\s*(\d+)` at a given position: skip
whitespace greedily, then capture a nonempty maximal digit run. -/
def capDigits (rest : List Char) : Option (List Char) :=
  let r := rest.dropWhile isWS
  let ds := r.takeWhile isDigitCh
  if ds.isEmpty then none else some ds

/-- Attempt the tail of the pattern `\s*(-?\d+)`: like `capDigits` but with
an optional leading minus sign. -/
def capSigned (rest : List Char) : Option (List Char) :=
  let r := rest.dropWhile isWS
  match r with
  | '-' :: r2 =>
    let ds := r2.takeWhile isDigitCh
    if ds.isEmpty then none else some ('-' :: ds)
  | _ => capDigits rest

/-- Attempt the tail of the pattern `\s*(.*?)(?:\n|$)` under `re.DOTALL`:
skip whitespace greedily, then capture lazily up to the first newline or the
end of the text.  This attempt always succeeds. -/
def capLine (rest : List Char) : Option (List Char) :=
  some ((rest.dropWhile isWS).takeWhile (fun c => !(c == '\n')))

/-- Model of `re.search` for a pattern of the form `lit` followed by a capture
attempt `cap`: try the attempt at each occurrence of the literal from left
to right; the fuel argument dominates the number of occurrences. -/
def searchCapture (lit : List Char) (cap : List Char → Option (List Char)) :
    Nat → List Char → Option (List Char)
  | 0, _ => none
  | Nat.succ fuel, s =>
    match findSplit lit s with
    | none => none
    | some (_, rest) =>
      match cap rest with
      | some v => some v
      | none => searchCapture lit cap fuel rest

/-- Search the content for one `***field:` pattern. -/
def searchField (lit : List Char) (cap : List Char → Option (List Char))
    (content : List Char) : Option (List Char) :=
  searchCapture lit cap (content.length + 1) content

/-- The extraction of one field: the stripped capture of its pattern, or the
field's current-state default when the pattern does not match. -/
def extractField (lit : List Char) (cap : List Char → Option (List Char))
    (defaultV : List Char) (content : List Char) : List Char :=
  match searchField lit cap content with
  | some v => pyStrip v
  | none => defaultV

/-- Model of `_get_default_value 'health'`. -/
def default_health_value (st : GameState) : List Char := intStr st.health

/-- Model of `_get_default_value 'inventory'`: `','.join(state.inventory)` (the empty
join coincides with the `''` branch of the source). -/
def default_inventory_value (st : GameState) : List Char :=
  joinComma (st.inventory.map String.data)

/-- Model of `_get_default_value 'karma'`. -/
def default_karma_value (st : GameState) : List Char := intStr st.karma

/-- Model of `_get_default_value 'gamemaster_message'`. -/
def default_gm_value : List Char :=
  "I\x27m having trouble understanding what happened. Please try again.".data

/-- Model of `_get_default_value 'image_prompt'`. -/
def default_image_value : List Char := "A mysterious scene".data

/-- Model of `_get_default_value 'turn_summary'`. -/
def default_summary_value (st : GameState) : List Char :=
  (if st.turn_summary = "" then "The adventure begins..." else st.turn_summary).data

/-- The raw (string-valued) result dictionary of `_extract_components`. -/
structure RawResults where
  health : List Char
  inventory : List Char
  karma : List Char
  gamemaster_message : List Char
  image_prompt : List Char
  turn_summary : List Char
  deriving DecidableEq, Repr

/-- Model of `ResponseParser._extract_components`: each field is matched
independently by its own line-anchored pattern, with a per-field
current-state default when the pattern fails. -/
def _extract_components (content : List Char) (st : GameState) : RawResults :=
  { health := extractField "***health:".data capDigits (default_health_value st) content
    inventory := extractField "***inventory:".data capLine (default_inventory_value st) content
    karma := extractField "***karma:".data capSigned (default_karma_value st) content
    gamemaster_message := extractField "***gamemaster_message:".data capLine default_gm_value content
    image_prompt := extractField "***image_prompt:".data capLine default_image_value content
    turn_summary := extractField "***turn_summary:".data capLine (default_summary_value st) content }

/-- The character class `[\[\]'"\\]` removed from the inventory text by
`re.sub` (the apostrophe is written by code point). -/
def isInventoryStripped (c : Char) : Bool :=
  c == '[' || c == ']' || c == Char.ofNat 39 || c == '"' || c == '\\'

/-- The inventory clean-up of `_clean_and_validate_results`: strip
bracket/quote/backslash characters, split on commas, strip and drop empty or
bracket-initial tokens, and de-duplicate preserving first occurrence. -/
def cleanInventoryStr (l : List Char) : List String :=
  let l2 := l.filter (fun c => !isInventoryStripped c)
  let toks := (splitOnChar ',' l2).map pyStrip
  let toks := toks.filter (fun t =>
    !t.isEmpty && !(t.head? == some '[') && !(t.head? == some ']'))
  (dedupFirst toks).map (fun t => String.mk t)

/-- Model of `ResponseParser._clean_and_validate_results`: clamp the numeric fields
and clean the inventory; a `ValueError` from either `int` conversion reverts
health, karma and inventory together to the current state. -/
def _clean_and_validate_results (r : RawResults) (st : GameState) : ParsedResponse :=
  match pyInt r.health, pyInt r.karma with
  | some h, some k =>
    { health := min 100 (max 0 h)
      karma := min 100 (max (-100) k)
      inventory := cleanInventoryStr r.inventory
      gamemaster_message := String.mk r.gamemaster_message
      image_prompt := String.mk r.image_prompt
      turn_summary := String.mk r.turn_summary }
  | _, _ =>
    { health := st.health
      karma := st.karma
      inventory := st.inventory
      gamemaster_message := String.mk r.gamemaster_message
      image_prompt := String.mk r.image_prompt
      turn_summary := String.mk r.turn_summary }

/-- Model of `ResponseParser._get_default_response`: every structured field mirrors
the current state (with a placeholder when the summary is empty) and the
messages are replaced by fixed texts. -/
def _get_default_response (st : GameState) : ParsedResponse :=
  { health := st.health
    inventory := st.inventory
    karma := st.karma
    gamemaster_message := "I apologize, but I\x27m having trouble processing what happened. Please try your action again."
    image_prompt := "A mysterious scene"
    turn_summary := if st.turn_summary = "" then "The adventure begins..." else st.turn_summary }

/-- Model of `ResponseParser._handle_malformed_response`: keep the raw text as the
gamemaster message and append a synthetic turn line to the prior summary,
but only when the raw text is non-empty (Python truthiness). -/
def _handle_malformed_response (content : List Char) (st : GameState) : ParsedResponse :=
  let d := _get_default_response st
  if content.isEmpty then d
  else
    { d with
      gamemaster_message := String.mk (pyStrip content)
      turn_summary :=
        st.turn_summary ++ "\nTurn " ++ natStrS (st.turn + 1) ++ ": " ++ st.last_player_message }

/-- Model of `ResponseParser.parse_response`.  `none` models a response object with
no `.content` attribute (or an exception escaping `llm.invoke`); both return
the full current-state default. -/
def parse_response (resp : Option String) (st : GameState) : ParsedResponse :=
  match resp with
  | none => _get_default_response st
  | some raw =>
    match findBlock raw.data with
    | none => _handle_malformed_response raw.data st
    | some content => _clean_and_validate_results (_extract_components content st) st

/-! ## Health evaluator (src/health_manager.py, class HealthManager) -/

/-- Model of `HealthManager.HEALING_KEYWORDS`. -/
def HEALING_KEYWORDS : List String :=
  ["heal", "rest", "sleep", "bandage", "medicine", "potion", "cure",
   "treat", "recover", "meditate", "bind wound", "patch", "doctor",
   "medical", "first aid", "healing", "health", "restore"]

/-- Model of `HealthManager.is_healing_attempt`: case-insensitive substring test of
the action against the keyword set. -/
def is_healing_attempt (action : String) : Bool :=
  HEALING_KEYWORDS.any (fun k => containsSub (toLowerList action.data) k.data)

/-- Find the first line starting with a given tag
(`next(line for line in ... if line.startswith(tag))`). -/
def findTaggedLine (tag : List Char) (lines : List (List Char)) : Option (List Char) :=
  lines.find? (fun ln => isPrefixList tag ln)

/-- The parsing inside `evaluate_health_change`'s `try` block: locate the
three tagged lines of the model's stripped reply, take the text between the
first and second colon of each, convert the numeric field with `int`, and
compare the fatal field (stripped, lowered) against `'true'`.  `none` models
any raising step (`StopIteration`, `IndexError`, `ValueError`). -/
def parseHealthResp (r : String) : Option (Int × String × Bool) := do
  let lines := splitOnChar '\n' (pyStrip r.data)
  let hl ← findTaggedLine "HEALTH_CHANGE:".data lines
  let el ← findTaggedLine "EXPLANATION:".data lines
  let fl ← findTaggedLine "IS_FATAL:".data lines
  let hpart ← (splitOnChar ':' hl).get? 1
  let hc ← pyInt hpart
  let epart ← (splitOnChar ':' el).get? 1
  let fpart ← (splitOnChar ':' fl).get? 1
  pure (hc, String.mk (pyStrip epart), toLowerList (pyStrip fpart) == "true".data)

/-- The fallback explanation of `evaluate_health_change`. -/
def healthFailMsg : String := "Unable to evaluate health change for this action."

/-- Model of `HealthManager.evaluate_health_change`, parameterised by the model's
reply (`none` models a failed `llm.invoke`): post-processing forces the
delta to -100 when fatal and clamps it to [-50, 25] otherwise; any failure
yields the safe no-op triple. -/
def evaluate_health_change (resp : Option String) : Int × String × Bool :=
  match resp with
  | none => (0, healthFailMsg, false)
  | some r =>
    match parseHealthResp r with
    | none => (0, healthFailMsg, false)
    | some (hc, ex, fatal) =>
      if fatal then (-100, ex, true)
      else (max (-50) (min 25 hc), ex, false)

/-- Model of `HealthManager.calculate_final_health`. -/
def calculate_final_health (current_health health_change : Int) : Int :=
  max 0 (min 100 (current_health + health_change))

/-! ## Karma evaluator (src/karma_manager.py, class KarmaManager) -/

/-- The parsing inside `evaluate_karma_change`'s `try` block, analogous to
`parseHealthResp` for the two tagged lines of the karma reply. -/
def parseKarmaResp (r : String) : Option (Int × String) := do
  let lines := splitOnChar '\n' (pyStrip r.data)
  let kl ← findTaggedLine "KARMA_CHANGE:".data lines
  let el ← findTaggedLine "EXPLANATION:".data lines
  let kpart ← (splitOnChar ':' kl).get? 1
  let kc ← pyInt kpart
  let epart ← (splitOnChar ':' el).get? 1
  pure (kc, String.mk (pyStrip epart))

/-- The fallback explanation of `evaluate_karma_change`. -/
def karmaFailMsg : String := "Unable to evaluate karma change for this action."

/-- Model of `KarmaManager.evaluate_karma_change`, parameterised by the model's
reply: the parsed delta is clamped to [-10, 10]; any failure yields the safe
no-op pair. -/
def evaluate_karma_change (resp : Option String) : Int × String :=
  match resp with
  | none => (0, karmaFailMsg)
  | some r =>
    match parseKarmaResp r with
    | none => (0, karmaFailMsg)
    | some (kc, ex) => (max (-10) (min 10 kc), ex)

/-- Model of `KarmaManager.calculate_final_karma`. -/
def calculate_final_karma (current_karma karma_change : Int) : Int :=
  max (-100) (min 100 (current_karma + karma_change))

/-! ## Turbulence system (src/main.py, class TurbulenceSystem) -/

/-- The per-turn firing probability of `should_add_turbulence`. -/
def turbulenceChance (turn : Nat) : ℚ :=
  if turn ≤ 5 then 0.10 else if turn ≤ 10 then 0.20 else 0.30

/-- Model of `TurbulenceSystem.should_add_turbulence`, with the uniform draw of
`random.random()` passed in as a rational in [0, 1). -/
def should_add_turbulence (turn : Nat) (draw : ℚ) : Bool :=
  if turn < 2 then false
  else decide (draw < turbulenceChance turn)

/-- Model of `TurbulenceSystem.generate_turbulence_event`'s lethality chance:
`0.80 - ((karma + 100) / 200) * 0.75`. -/
def lethalChance (karma : Int) : ℚ :=
  0.80 - (((karma : ℚ) + 100) / 200) * 0.75

/-! ## Turn orchestrator (src/main.py, class Game) -/

/-- The LLM replies consumed by one call of `Game._process_turn` (and, when
the turn ends in death, by the reincarnation it triggers).  Narrative
element and turbulence texts are omitted: they only shape the prompt of the
main narrative call, never the state. -/
structure TurnInputs where
  healthResp : Option String
  karmaResp : Option String
  turnResp : Option String
  newSetting : String
  newSituation : String
  itemsResp : Option String

/-- Model of `Game._update_game_state`: install the parsed response wholesale and
advance the turn counter (the UI notifications and the background image
dispatch carry no game state). -/
def _update_game_state (st : GameState) (p : ParsedResponse) : GameState :=
  { st with
    health := p.health
    inventory := p.inventory
    karma := p.karma
    last_gamemaster_message := p.gamemaster_message
    turn_summary := p.turn_summary
    image_prompt := p.image_prompt
    turn := st.turn + 1 }

/-- The item list computed by `Game._extract_initial_items` from the
item-extraction reply: strip, split on commas, strip the tokens, drop the
empty ones, and keep at most two. -/
def seedItems : Option String → List String
  | none => []
  | some r =>
    (((splitOnChar ',' (pyStrip r.data)).map pyStrip).filter
      (fun t => !t.isEmpty) |>.take 2).map (fun t => String.mk t)

/-- Model of `Game._extract_initial_items`: seed the inventory from the reply; when
the call fails (`none`) or yields no items, the inventory is left alone. -/
def _extract_initial_items (st : GameState) (itemsResp : Option String) : GameState :=
  match itemsResp with
  | none => st
  | some r =>
    let items := ((splitOnChar ',' (pyStrip r.data)).map pyStrip).filter
      (fun t => !t.isEmpty)
    if items.isEmpty then st
    else { st with inventory := (items.take 2).map (fun t => String.mk t) }

/-- Model of `Game._start_new_situation`: save karma, reset the life values, restore
karma, install the karma-selected setting and the regenerated opening
situation, and re-seed the inventory by the item-extraction call. -/
def _start_new_situation (st : GameState) (newSetting newSituation : String)
    (itemsResp : Option String) : GameState :=
  let current_karma := st.karma
  let st1 := reset_life_values st
  let st2 := { st1 with karma := current_karma }
  let st3 := { st2 with chosen_setting := newSetting }
  let st4 := { st3 with last_gamemaster_message := newSituation }
  _extract_initial_items st4 itemsResp

/-- Model of `Game._process_turn`: evaluate and apply the health and karma deltas,
parse the main narrative reply against the already-updated state, install
it, restore the locally computed karma and health over the parsed numbers,
and run the death check. -/
def _process_turn (st : GameState) (inp : TurnInputs) : GameState :=
  let hres := evaluate_health_change inp.healthResp
  let is_fatal := hres.2.2
  let st1 := { st with health := calculate_final_health st.health hres.1 }
  let kres := evaluate_karma_change inp.karmaResp
  let st2 := { st1 with karma := calculate_final_karma st1.karma kres.1 }
  let parsed := parse_response inp.turnResp st2
  let saved_karma := st2.karma
  let saved_health := st2.health
  let st3 := _update_game_state st2 parsed
  let st4 := { st3 with karma := saved_karma, health := saved_health }
  if st4.health ≤ 0 || is_fatal then
    let st5 := if is_fatal then { st4 with health := 0 } else st4
    _start_new_situation st5 inp.newSetting inp.newSituation inp.itemsResp
  else st4

/-! ## Concrete fixtures used in claim statements and witnesses -/

/-- A fresh session state (empty summary and inventory, health 100, karma 0). -/
def freshState : GameState := GameState.init "Alice"

/-- The end-to-end example state of the spec: health 100, karma 0, empty
inventory, with arbitrary concrete narrative fields. -/
def c1Start : GameState :=
  { freshState with
    turn := 3, last_player_message := "act", turn_summary := "so far",
    last_gamemaster_message := "m", chosen_setting := "cave" }

/-- A health-evaluator reply scoring (-30, "fell", False). -/
def healthFellResp : Option String :=
  some "HEALTH_CHANGE: -30\nEXPLANATION: fell\nIS_FATAL: false"

/-- A health-evaluator reply with a numeric answer of 7 but a true fatal flag. -/
def healthFatalResp : Option String :=
  some "HEALTH_CHANGE: 7\nEXPLANATION: doom\nIS_FATAL: true"

/-- A karma-evaluator reply scoring (5, "helped"). -/
def karmaHelpedResp : Option String :=
  some "KARMA_CHANGE: 5\nEXPLANATION: helped"

/-- The well-formed wire-format block of the round-trip example. -/
def wellFormedRaw : String :=
  "START_LLM_GENERATED_CONTENT:\n***health: 80\n***inventory: sword, rope\n***karma: -5\n***gamemaster_message: You proceed.\n***image_prompt: A dark cave.\n***turn_summary: Entered cave.\nEND_LLM_GENERATED_CONTENT"

/-- The turn inputs of the end-to-end example. -/
def c1Inputs : TurnInputs :=
  { healthResp := healthFellResp, karmaResp := karmaHelpedResp,
    turnResp := some wellFormedRaw, newSetting := "s", newSituation := "t",
    itemsResp := none }

/-- A raw reply containing neither delimiter marker. -/
def rawNoMarkers : String := "The cave collapses around you."

/-- Extraction results whose health text is not numeric (karma is). -/
def badHealthResults : RawResults :=
  { health := "oops".data, inventory := "sword, rope".data, karma := "3".data,
    gamemaster_message := "g".data, image_prompt := "i".data,
    turn_summary := "t".data }

/-- A content block with a karma line but no health line. -/
def karmaOnlyContent : List Char := "***karma: 7 and nothing else".data

/-- A mid-session state used by the death-turn witness. -/
def deathState : GameState :=
  { GameState.init "Dee" with
    karma := 2, turn := 5, inventory := ["torch"], turn_summary := "five turns",
    last_player_message := "leap" }

/-- Turn inputs whose health evaluation is fatal. -/
def deathInputs : TurnInputs :=
  { healthResp := healthFatalResp, karmaResp := karmaHelpedResp,
    turnResp := some "you fall", newSetting := "desert",
    newSituation := "You wake again.", itemsResp := some "lamp, rope, extra" }

/-! ## Helper lemmas -/

/-- The dedup loop yields a duplicate-free list none of whose entries was
already seen. -/
theorem dedupAux_nodup_avoids (l : List (List Char)) :
    ∀ seen, (dedupAux seen l).Nodup ∧ ∀ x ∈ dedupAux seen l, x ∉ seen := by
  induction l with
  | nil => intro seen; simp [dedupAux]
  | cons x xs ih =>
    intro seen
    by_cases hx : x ∈ seen
    · simpa [dedupAux, hx] using ih seen
    · have h2 := ih (x :: seen)
      simp only [dedupAux, if_neg hx]
      constructor
      · refine List.nodup_cons.mpr ⟨fun hmem => ?_, h2.1⟩
        exact (h2.2 x hmem) (List.mem_cons_self x seen)
      · intro y hy
        rcases List.mem_cons.mp hy with hy | hy
        · exact hy ▸ hx
        · exact fun hs => (h2.2 y hy) (List.mem_cons_of_mem x hs)

/-- The dedup loop preserves first-seen order: its output is a sublist of
its input. -/
theorem dedupAux_sublist (l : List (List Char)) :
    ∀ seen, (dedupAux seen l).Sublist l := by
  induction l with
  | nil => intro seen; simp [dedupAux]
  | cons x xs ih =>
    intro seen
    by_cases hx : x ∈ seen
    · simp only [dedupAux, if_pos hx]
      exact (ih seen).cons x
    · simp only [dedupAux, if_neg hx]
      exact (ih (x :: seen)).cons₂ x

/-- The parser's inventory clean-up always produces a duplicate-free list. -/
theorem cleanInventoryStr_nodup (l : List Char) : (cleanInventoryStr l).Nodup := by
  unfold cleanInventoryStr dedupFirst
  exact List.Nodup.map (fun a b hab => congrArg String.data hab)
    (dedupAux_nodup_avoids _ []).1

/-- Every code path of the response parser returns a duplicate-free
inventory, provided the current state's inventory (echoed by the default and
rollback paths) is duplicate-free. -/
theorem parse_response_inventory_nodup (tr : Option String) (st : GameState)
    (h : st.inventory.Nodup) : (parse_response tr st).inventory.Nodup := by
  unfold parse_response
  cases tr with
  | none => simpa [_get_default_response] using h
  | some raw =>
    cases hb : findBlock raw.data with
    | none =>
      simp only [hb]
      unfold _handle_malformed_response
      by_cases he : raw.data.isEmpty <;> simp [he, _get_default_response, h]
    | some content =>
      simp only [hb]
      unfold _clean_and_validate_results
      cases hh : pyInt (_extract_components content st).health with
      | none => simp [hh, h]
      | some hv =>
        cases hk : pyInt (_extract_components content st).karma with
        | none => simp [hh, hk, h]
        | some kv => simp [hh, hk, cleanInventoryStr_nodup]

/-! ## Claim theorems -/

/-- C1: Per-turn reconciliation.  For every turn that does not end in death,
after parsing the narrative reply the resulting state's health and karma
equal the values computed locally by the health and karma evaluators,
regardless of the numbers embedded in the parsed reply, while inventory,
gamemaster message, turn summary and image prompt are taken as-is from the
parse; and the spec's end-to-end example (health 100, karma 0, deltas -30
non-fatal and +5) yields health 70 and karma 5 for every narrative reply. -/
theorem c1_turn_reconciliation :
    (∀ (st : GameState) (inp : TurnInputs),
      (evaluate_health_change inp.healthResp).2.2 = false →
      0 < calculate_final_health st.health (evaluate_health_change inp.healthResp).1 →
      (_process_turn st inp).health
          = calculate_final_health st.health (evaluate_health_change inp.healthResp).1
      ∧ (_process_turn st inp).karma
          = calculate_final_karma st.karma (evaluate_karma_change inp.karmaResp).1
      ∧ (_process_turn st inp).inventory
          = (parse_response inp.turnResp
              { st with
                health := calculate_final_health st.health (evaluate_health_change inp.healthResp).1,
                karma := calculate_final_karma st.karma (evaluate_karma_change inp.karmaResp).1 }).inventory
      ∧ (_process_turn st inp).last_gamemaster_message
          = (parse_response inp.turnResp
              { st with
                health := calculate_final_health st.health (evaluate_health_change inp.healthResp).1,
                karma := calculate_final_karma st.karma (evaluate_karma_change inp.karmaResp).1 }).gamemaster_message
      ∧ (_process_turn st inp).turn_summary
          = (parse_response inp.turnResp
              { st with
                health := calculate_final_health st.health (evaluate_health_change inp.healthResp).1,
                karma := calculate_final_karma st.karma (evaluate_karma_change inp.karmaResp).1 }).turn_summary
      ∧ (_process_turn st inp).image_prompt
          = (parse_response inp.turnResp
              { st with
                health := calculate_final_health st.health (evaluate_health_change inp.healthResp).1,
                karma := calculate_final_karma st.karma (evaluate_karma_change inp.karmaResp).1 }).image_prompt)
    ∧ (∀ turnResp : Option String,
        (_process_turn c1Start { c1Inputs with turnResp := turnResp }).health = 70
        ∧ (_process_turn c1Start { c1Inputs with turnResp := turnResp }).karma = 5) := by
  have G : ∀ (st : GameState) (inp : TurnInputs),
      (evaluate_health_change inp.healthResp).2.2 = false →
      0 < calculate_final_health st.health (evaluate_health_change inp.healthResp).1 →
      (_process_turn st inp).health
          = calculate_final_health st.health (evaluate_health_change inp.healthResp).1
      ∧ (_process_turn st inp).karma
          = calculate_final_karma st.karma (evaluate_karma_change inp.karmaResp).1
      ∧ (_process_turn st inp).inventory
          = (parse_response inp.turnResp
              { st with
                health := calculate_final_health st.health (evaluate_health_change inp.healthResp).1,
                karma := calculate_final_karma st.karma (evaluate_karma_change inp.karmaResp).1 }).inventory
      ∧ (_process_turn st inp).last_gamemaster_message
          = (parse_response inp.turnResp
              { st with
                health := calculate_final_health st.health (evaluate_health_change inp.healthResp).1,
                karma := calculate_final_karma st.karma (evaluate_karma_change inp.karmaResp).1 }).gamemaster_message
      ∧ (_process_turn st inp).turn_summary
          = (parse_response inp.turnResp
              { st with
                health := calculate_final_health st.health (evaluate_health_change inp.healthResp).1,
                karma := calculate_final_karma st.karma (evaluate_karma_change inp.karmaResp).1 }).turn_summary
      ∧ (_process_turn st inp).image_prompt
          = (parse_response inp.turnResp
              { st with
                health := calculate_final_health st.health (evaluate_health_change inp.healthResp).1,
                karma := calculate_final_karma st.karma (evaluate_karma_change inp.karmaResp).1 }).image_prompt := by
    intro st inp hfatal hpos
    have hc : decide (calculate_final_health st.health (evaluate_health_change inp.healthResp).1 ≤ 0)
        = false := decide_eq_false (by omega)
    unfold _process_turn
    simp only [hfatal, hc, Bool.or_false, Bool.false_eq_true, if_false]
    simp [_update_game_state]
  refine ⟨G, ?_⟩
  intro turnResp
  have hfatal : (evaluate_health_change c1Inputs.healthResp).2.2 = false := by decide
  have hpos : 0 < calculate_final_health c1Start.health (evaluate_health_change c1Inputs.healthResp).1 := by
    decide
  have e70 : calculate_final_health c1Start.health (evaluate_health_change c1Inputs.healthResp).1 = 70 := by
    decide
  have e5 : calculate_final_karma c1Start.karma (evaluate_karma_change c1Inputs.karmaResp).1 = 5 := by
    decide
  have h1 := G c1Start { c1Inputs with turnResp := turnResp } hfatal hpos
  exact ⟨h1.1.trans e70, h1.2.1.trans e5⟩

/-- C1 witness: the reconciliation equations instantiated on the concrete
end-to-end turn, with both hypotheses discharged by evaluation. -/
theorem c1_turn_reconciliation_witness :
    (_process_turn c1Start c1Inputs).health
        = calculate_final_health c1Start.health (evaluate_health_change c1Inputs.healthResp).1
    ∧ (_process_turn c1Start c1Inputs).karma
        = calculate_final_karma c1Start.karma (evaluate_karma_change c1Inputs.karmaResp).1 :=
  ⟨(c1_turn_reconciliation.1 c1Start c1Inputs (by decide) (by decide)).1,
   (c1_turn_reconciliation.1 c1Start c1Inputs (by decide) (by decide)).2.1⟩

/-- C2 counterexample: the claim says the internal-error default response's
turn summary mirrors the current state, but on a state with an empty summary
the parser substitutes the placeholder text instead. -/
theorem c2_summary_counterexample :
    (parse_response none freshState).turn_summary ≠ freshState.turn_summary := by
  decide

/-- C2 (amended): the parser is a total function returning all six fields;
on an internal error (a response without usable content) it returns the full
current-state default in which health, karma and inventory mirror the
current state, the turn summary mirrors the current state when non-empty and
is the fixed placeholder otherwise, and the messages are replaced with a
generic apology / placeholder. -/
theorem c2_parse_total_default (st : GameState) :
    parse_response none st =
      { health := st.health
        inventory := st.inventory
        karma := st.karma
        gamemaster_message := "I apologize, but I\x27m having trouble processing what happened. Please try your action again."
        image_prompt := "A mysterious scene"
        turn_summary := if st.turn_summary = "" then "The adventure begins..." else st.turn_summary } :=
  rfl

/-- C3 counterexample: the claim says every marker-free raw text becomes the
trimmed gamemaster message, but on the empty raw text (which contains no
markers, and whose trim is the empty string) the parser returns the generic
apology instead. -/
theorem c3_empty_raw_counterexample :
    (parse_response (some "") freshState).gamemaster_message ≠ "" := by
  decide

/-- C3 (amended): for every non-empty raw text in which neither delimiter
marker occurs, the parse keeps health, karma and inventory at the pre-call
state's values, returns the trimmed raw text as the gamemaster message, and
appends the synthetic "Turn N: <last player message>" line to the prior
summary. -/
theorem c3_malformed_path (raw : String) (st : GameState)
    (h1 : findSplit startMarker raw.data = none)
    (_h2 : findSplit endMarker raw.data = none)
    (h3 : raw.data ≠ []) :
    (parse_response (some raw) st).gamemaster_message = String.mk (pyStrip raw.data)
    ∧ (parse_response (some raw) st).health = st.health
    ∧ (parse_response (some raw) st).karma = st.karma
    ∧ (parse_response (some raw) st).inventory = st.inventory
    ∧ (parse_response (some raw) st).turn_summary
        = st.turn_summary ++ "\nTurn " ++ natStrS (st.turn + 1) ++ ": " ++ st.last_player_message := by
  have hne : raw.data.isEmpty = false := by
    cases hd : raw.data with
    | nil => exact absurd hd h3
    | cons c cs => rfl
  simp only [parse_response, findBlock, h1]
  simp [_handle_malformed_response, hne, _get_default_response]

/-- C3 witness: the malformed path instantiated on a concrete marker-free
raw text, discharging all three hypotheses by evaluation. -/
theorem c3_malformed_path_witness :
    (parse_response (some rawNoMarkers) c1Start).gamemaster_message
        = String.mk (pyStrip rawNoMarkers.data)
    ∧ (parse_response (some rawNoMarkers) c1Start).health = c1Start.health :=
  ⟨(c3_malformed_path rawNoMarkers c1Start (by decide) (by decide) (by decide)).1,
   (c3_malformed_path rawNoMarkers c1Start (by decide) (by decide) (by decide)).2.1⟩

/-- C4: in the validation step, a failed integer conversion of either the
extracted health or the extracted karma text reverts health, karma AND
inventory together to the pre-turn state; whereas in the extraction step a
field whose pattern fails falls back to its own current-state default
independently of the other fields (here: a missing health pattern defaults
health while a matching karma pattern still yields its captured value). -/
theorem c4_rollback_vs_per_field :
    (∀ (r : RawResults) (st : GameState),
      pyInt r.health = none ∨ pyInt r.karma = none →
      (_clean_and_validate_results r st).health = st.health
      ∧ (_clean_and_validate_results r st).karma = st.karma
      ∧ (_clean_and_validate_results r st).inventory = st.inventory)
    ∧ (∀ (content : List Char) (st : GameState) (v : List Char),
      searchField "***health:".data capDigits content = none →
      searchField "***karma:".data capSigned content = some v →
      (_extract_components content st).health = default_health_value st
      ∧ (_extract_components content st).karma = pyStrip v) := by
  constructor
  · intro r st h
    unfold _clean_and_validate_results
    cases hh : pyInt r.health with
    | none => simp [hh]
    | some hv =>
      cases hk : pyInt r.karma with
      | none => simp [hh, hk]
      | some kv =>
        rcases h with h | h
        · rw [hh] at h; cases h
        · rw [hk] at h; cases h
  · intro content st v h1 h2
    unfold _extract_components extractField
    rw [h1, h2]
    exact ⟨rfl, rfl⟩

/-- C4 witness: the rollback applied to extraction results with a
non-numeric health text, and the per-field fallback applied to a content
block that has a karma line but no health line. -/
theorem c4_rollback_vs_per_field_witness :
    (_clean_and_validate_results badHealthResults c1Start).health = c1Start.health
    ∧ (_clean_and_validate_results badHealthResults c1Start).inventory = c1Start.inventory
    ∧ (_extract_components karmaOnlyContent c1Start).karma = pyStrip "7".data :=
  ⟨(c4_rollback_vs_per_field.1 badHealthResults c1Start (Or.inl (by decide))).1,
   (c4_rollback_vs_per_field.1 badHealthResults c1Start (Or.inl (by decide))).2.2,
   (c4_rollback_vs_per_field.2 karmaOnlyContent c1Start "7".data (by decide) (by decide)).2⟩

/-- C5: round trip on the wire format: the six-line well-formed block parses
to exactly health 80, inventory ["sword", "rope"], karma -5, the given
gamemaster message, image prompt and turn summary. -/
theorem c5_round_trip :
    parse_response (some wellFormedRaw) freshState =
      { health := 80
        inventory := ["sword", "rope"]
        karma := -5
        gamemaster_message := "You proceed."
        image_prompt := "A dark cave."
        turn_summary := "Entered cave." } := by
  decide

/-- C6: health-evaluator post-processing: a successfully parsed reply with a
true fatal flag yields delta -100 regardless of the model's numeric value; a
successfully parsed non-fatal reply yields the model's value clamped into
[-50, 25]; and any parse or invocation failure yields the safe no-op triple
(0, fallback message, false) — the function is total, so no exception
reaches the caller. -/
theorem c6_health_postprocessing :
    (∀ (r : String) (hc : Int) (ex : String),
      parseHealthResp r = some (hc, ex, true) →
      evaluate_health_change (some r) = (-100, ex, true))
    ∧ (∀ (r : String) (hc : Int) (ex : String),
      parseHealthResp r = some (hc, ex, false) →
      evaluate_health_change (some r) = (max (-50) (min 25 hc), ex, false))
    ∧ (∀ r : String, parseHealthResp r = none →
      evaluate_health_change (some r) = (0, healthFailMsg, false))
    ∧ evaluate_health_change none = (0, healthFailMsg, false) := by
  refine ⟨?_, ?_, ?_, rfl⟩
  · intro r hc ex h
    simp [evaluate_health_change, h]
  · intro r hc ex h
    simp [evaluate_health_change, h]
  · intro r h
    simp [evaluate_health_change, h]

/-- C6 witness: the fatal and non-fatal branches applied to concrete
evaluator replies (one with numeric answer 7 yet fatal, one scoring -30
non-fatal), and the failure branch applied to an unparseable reply. -/
theorem c6_health_postprocessing_witness :
    evaluate_health_change healthFatalResp = (-100, "doom", true)
    ∧ evaluate_health_change healthFellResp = (max (-50) (min 25 (-30)), "fell", false)
    ∧ evaluate_health_change (some "garbage") = (0, healthFailMsg, false) :=
  ⟨c6_health_postprocessing.1 "HEALTH_CHANGE: 7\nEXPLANATION: doom\nIS_FATAL: true" 7 "doom"
      (by decide),
   c6_health_postprocessing.2.1 "HEALTH_CHANGE: -30\nEXPLANATION: fell\nIS_FATAL: false" (-30) "fell"
      (by decide),
   c6_health_postprocessing.2.2.1 "garbage" (by decide)⟩

/-- C7: the karma evaluator's returned delta is always within [-10, 10],
whatever the upstream model reply is (including failures), and a model value
of 20 is clamped to exactly 10 — the tighter [-10, 10] bound is the enforced
one, not the [-15, +15] range mentioned in the prompt. -/
theorem c7_karma_bound :
    (∀ resp : Option String,
      -10 ≤ (evaluate_karma_change resp).1 ∧ (evaluate_karma_change resp).1 ≤ 10)
    ∧ evaluate_karma_change (some "KARMA_CHANGE: 20\nEXPLANATION: greedy") = (10, "greedy") := by
  constructor
  · intro resp
    cases resp with
    | none => exact ⟨by norm_num [evaluate_karma_change], by norm_num [evaluate_karma_change]⟩
    | some r =>
      unfold evaluate_karma_change
      cases h : parseKarmaResp r with
      | none => exact ⟨by norm_num [h], by norm_num [h]⟩
      | some p =>
        obtain ⟨kc, ex⟩ := p
        simp only [h]
        exact ⟨le_max_left _ _, max_le (by norm_num) (min_le_left _ _)⟩
  · decide

/-- The life reset performed by `_start_new_situation`: karma and name are
carried over from the dying state, the life-local fields revert to their
new-life defaults, the new setting and situation are installed, and the
inventory is re-seeded from the item-extraction reply. -/
theorem start_new_situation_eq (st : GameState) (s1 s2 : String) (ir : Option String) :
    _start_new_situation st s1 s2 ir =
      { st with
        health := 100
        inventory := seedItems ir
        turn := 0
        last_gamemaster_message := s2
        last_player_message := ""
        turn_summary := ""
        image_prompt := ""
        chosen_setting := s1 } := by
  cases ir with
  | none => rfl
  | some r =>
    simp only [_start_new_situation, _extract_initial_items, reset_life_values]
    cases hl : ((splitOnChar ',' (pyStrip r.data)).map pyStrip).filter (fun t => !t.isEmpty) with
    | nil => simp [seedItems, hl]
    | cons a as => simp [seedItems, hl]

/-- C8: whenever a turn ends with locally computed health <= 0 or with the
health evaluator's fatal flag set, the turn triggers a life reset after
which karma and name hold exactly their pre-reset values (karma as locally
computed this turn), while health, inventory and turn revert to their
new-life defaults 100, [] and 0, the inventory being re-seeded from the
item-extraction reply. -/
theorem c8_death_reincarnation (st : GameState) (inp : TurnInputs)
    (h : (evaluate_health_change inp.healthResp).2.2 = true
       ∨ calculate_final_health st.health (evaluate_health_change inp.healthResp).1 ≤ 0) :
    (_process_turn st inp).karma
        = calculate_final_karma st.karma (evaluate_karma_change inp.karmaResp).1
    ∧ (_process_turn st inp).name = st.name
    ∧ (_process_turn st inp).health = 100
    ∧ (_process_turn st inp).turn = 0
    ∧ (_process_turn st inp).inventory = seedItems inp.itemsResp := by
  cases hfb : (evaluate_health_change inp.healthResp).2.2 with
  | true =>
    unfold _process_turn
    simp only [hfb, Bool.or_true, if_true, start_new_situation_eq]
    refine ⟨?_, ?_, ?_, ?_, ?_⟩ <;> trivial
  | false =>
    have hl : calculate_final_health st.health (evaluate_health_change inp.healthResp).1 ≤ 0 := by
      rcases h with h | h
      · rw [hfb] at h; cases h
      · exact h
    unfold _process_turn
    simp only [hfb, Bool.or_false, decide_eq_true hl, if_true, Bool.false_eq_true, if_false,
      start_new_situation_eq]
    refine ⟨?_, ?_, ?_, ?_, ?_⟩ <;> trivial

/-- C8 witness: the death frame instantiated on a concrete fatal turn
(health reply with fatal flag set), with the hypothesis discharged by
evaluation. -/
theorem c8_death_reincarnation_witness :
    (_process_turn deathState deathInputs).karma
        = calculate_final_karma deathState.karma (evaluate_karma_change deathInputs.karmaResp).1
    ∧ (_process_turn deathState deathInputs).name = deathState.name
    ∧ (_process_turn deathState deathInputs).health = 100
    ∧ (_process_turn deathState deathInputs).turn = 0
    ∧ (_process_turn deathState deathInputs).inventory = seedItems deathInputs.itemsResp :=
  c8_death_reincarnation deathState deathInputs (Or.inl (by decide))

/-- C9 counterexample: the claim includes initial item seeding among the
operations preserving inventory de-duplication, but the seeding path does
not de-duplicate: an item-extraction reply listing the same item twice
seeds a duplicated inventory. -/
theorem c9_seed_duplicates_counterexample :
    ¬ (_extract_initial_items (reset_life_values freshState) (some "sword, sword")).inventory.Nodup := by
  decide

/-- C9 (amended): after turn-response parsing plus state update the
inventory has no duplicate entries provided the pre-turn inventory had none
(the parser's clean path de-duplicates, and its default and rollback paths
echo the pre-turn inventory), and after a life reset the inventory is empty
hence duplicate-free; the de-duplication keeps first-seen order (its output
is a sublist of its input).  Initial item seeding, by contrast, does not
de-duplicate. -/
theorem c9_inventory_nodup (tr : Option String) (st : GameState)
    (h : st.inventory.Nodup) :
    (_update_game_state st (parse_response tr st)).inventory.Nodup
    ∧ (reset_life_values st).inventory.Nodup
    ∧ ∀ ts : List (List Char), (dedupFirst ts).Sublist ts := by
  refine ⟨?_, by simp [reset_life_values], fun ts => dedupAux_sublist ts []⟩
  have hp := parse_response_inventory_nodup tr st h
  simpa [_update_game_state] using hp

/-- C9 witness: the amended invariant instantiated on a concrete state with
a duplicate-free inventory and the round-trip reply. -/
theorem c9_inventory_nodup_witness :
    (_update_game_state deathState (parse_response (some wellFormedRaw) deathState)).inventory.Nodup
    ∧ (reset_life_values deathState).inventory.Nodup :=
  ⟨(c9_inventory_nodup (some wellFormedRaw) deathState (by decide)).1,
   (c9_inventory_nodup (some wellFormedRaw) deathState (by decide)).2.1⟩

/-- C10: the turbulence trigger returns false for every turn strictly below
2; for turn >= 2 it fires exactly when the uniform draw falls strictly below
the threshold 0.10 for turn <= 5, 0.20 for turn <= 10 and 0.30 beyond. -/
theorem c10_should_fire (turn : Nat) (draw : ℚ) :
    (turn < 2 → should_add_turbulence turn draw = false)
    ∧ (2 ≤ turn →
        (should_add_turbulence turn draw = true ↔
          draw < (if turn ≤ 5 then (0.10 : ℚ) else if turn ≤ 10 then 0.20 else 0.30))) := by
  constructor
  · intro hlt
    simp [should_add_turbulence, hlt]
  · intro hge
    have hnlt : ¬ turn < 2 := by omega
    simp [should_add_turbulence, hnlt, turbulenceChance]

/-- C10 witness: the gate applied at turn 1 (never fires) and at turn 7
(fires exactly below the 0.20 threshold, here with draw 0.15). -/
theorem c10_should_fire_witness :
    should_add_turbulence 1 (1 / 2) = false
    ∧ should_add_turbulence 7 (3 / 20) = true :=
  ⟨(c10_should_fire 1 (1 / 2)).1 (by norm_num),
   ((c10_should_fire 7 (3 / 20)).2 (by norm_num)).mpr (by norm_num)⟩
